import Mathlib

/-!
# Verification of the BlackQuiet EmailSender campaign engine

Shallow embedding of the campaign engine (`CampaignManager` and its helpers)
from the JavaScript source, together with proofs about the embedded
operations.  The embedding follows the latest source variant (the
ES-module server with SMTP rotation): the rotation tracker
(`getNextAvailableSMTP`, `markSMTPFailure`, `markSMTPSuccess`), the
campaign registry (`startCampaign`, `stopCampaign`), the personalizer
(`personalizeContent`), the retry classifier (`isRetryableError`) and the
counter/retry bookkeeping of `processCampaign` / `processRetryQueue`.

JavaScript idioms are modelled explicitly:
* `x || d` on numbers (`0`, `undefined` falsy) is `jsOrNat`;
* `x || d` on strings (`""` falsy) is `jsOrStr`;
* `Map` objects are modelled as functions `String → Option α`;
* wall-clock instants are `Nat` milliseconds;
* `Math.random()`-driven choices take the drawn value as an explicit
  argument (an index reduced modulo the pool size).
-/

namespace BlackQuiet

/-- JavaScript `x || d` for an optional number: `undefined` and `0` are falsy. -/
def jsOrNat (x : Option Nat) (d : Nat) : Nat :=
  match x with
  | none => d
  | some 0 => d
  | some (n + 1) => n + 1

/-- JavaScript `x || d` for a string: the empty string is falsy. -/
def jsOrStr (x : String) (d : String) : String :=
  if x = "" then d else x

/-- JavaScript `x || d` for an optional string: `undefined` and `""` are falsy. -/
def jsOrOptStr (x : Option String) (d : String) : String :=
  match x with
  | none => d
  | some s => jsOrStr s d

/-- A JavaScript `Map` keyed by strings, modelled as a lookup function. -/
def JsMap (α : Type) : Type := String → Option α

/-- `map.set(k, v)` on the functional map model. -/
def mapSet {α : Type} (m : JsMap α) (k : String) (v : α) : JsMap α :=
  fun k' => if k' = k then some v else m k'

/-! ## Retry classifier (`isRetryableError`) -/

/-- The shape of a nodemailer send error as far as the engine inspects it:
an optional transport-level `code` string and an optional SMTP
`responseCode`.  Absent fields are `none` (JS `undefined`). -/
structure SendError where
  code : Option String
  responseCode : Option Int
  deriving DecidableEq, Repr

/-- `retryableCodes = ['ETIMEDOUT', 'ECONNRESET', 'ENOTFOUND']`. -/
def retryableCodes : List String := ["ETIMEDOUT", "ECONNRESET", "ENOTFOUND"]

/-- `isRetryableError(error)`: `retryableCodes.includes(error.code) ||
error.responseCode >= 400 && error.responseCode < 500`.  In JS `&&` binds
tighter than `||`, `includes(undefined)` is `false`, and comparisons
against `undefined` are `false`. -/
def isRetryableError (e : SendError) : Bool :=
  (match e.code with
   | some c => retryableCodes.contains c
   | none => false)
  ||
  (match e.responseCode with
   | some rc => decide (400 ≤ rc) && decide (rc < 500)
   | none => false)

/-! ## Rotation tracker data model

`processCampaign` builds, per campaign, a rotation object
`{ servers: [...], currentIndex: 0 }` where each server is the submitted
relay descriptor extended with runtime state
`{ isActive: true, failureCount: 0, sentCount: 0, lastUsed: null }`.
`lastFailure` and `responseTime` are fields the tracker reads but that are
absent (`undefined`) until written, hence `Option`. -/

structure SMTPServer where
  id : String
  name : String
  username : String
  isActive : Bool
  failureCount : Nat
  sentCount : Nat
  lastUsed : Option Nat
  lastFailure : Option Nat
  dailyLimit : Option Nat
  responseTime : Option Nat
  deriving DecidableEq, Repr

/-- Per-campaign rotation state (`this.smtpRotation.get(campaignId)`). -/
structure Rotation where
  servers : List SMTPServer
  currentIndex : Nat
  deriving DecidableEq, Repr

/-- `server.dailyLimit || 500` as used by the selection filter. -/
def effectiveDailyLimit (s : SMTPServer) : Nat :=
  jsOrNat s.dailyLimit 500

/-! ## `getNextAvailableSMTP` -/

/-- One evaluation of the filter callback of `getNextAvailableSMTP` at
wall-clock `now`, returning the (possibly reactivated) server when it
passes and `none` when it is filtered out:

```js
if (!server.isActive) {
  if (server.lastFailure) {
    const cooldownEnd = new Date(server.lastFailure.getTime() + 30 * 60000);
    if (new Date() > cooldownEnd) { server.isActive = true; server.failureCount = 0; }
    else return false;
  }
}
if (server.sentCount >= (server.dailyLimit || 500)) return false;
return true;
```
-/
def selectionFilter (now : Nat) (s : SMTPServer) : Option SMTPServer :=
  if s.isActive = false then
    match s.lastFailure with
    | some t =>
      if t + 30 * 60000 < now then
        -- the daily-limit test reads the reactivated server, whose
        -- `sentCount`/`dailyLimit` the reactivation left unchanged
        if s.sentCount ≥ effectiveDailyLimit s then none
        else some { s with isActive := true, failureCount := 0 }
      else none
    | none =>
      if s.sentCount ≥ effectiveDailyLimit s then none else some s
  else
    if s.sentCount ≥ effectiveDailyLimit s then none else some s

/-- The sort comparator of `getNextAvailableSMTP` returns a negative number
exactly when `a` precedes `b` strictly in the lexicographic order on
`(failureCount, sentCount, responseTime || 0)`:

```js
if (a.failureCount !== b.failureCount) return a.failureCount - b.failureCount;
if (a.sentCount !== b.sentCount) return a.sentCount - b.sentCount;
return (a.responseTime || 0) - (b.responseTime || 0);
```
-/
def serverLt (a b : SMTPServer) : Bool :=
  decide (a.failureCount < b.failureCount) ||
  (decide (a.failureCount = b.failureCount) &&
    (decide (a.sentCount < b.sentCount) ||
     (decide (a.sentCount = b.sentCount) &&
      decide (jsOrNat a.responseTime 0 < jsOrNat b.responseTime 0))))

/-- One comparison step of computing `sort(cmp)[0]`: keep the accumulator
unless the next element is strictly smaller under the comparator. -/
def pickBetter (acc y : SMTPServer) : SMTPServer :=
  if serverLt y acc then y else acc

/-- `activeServers.sort(cmp)[0]`: JS `Array.prototype.sort` is stable, so
taking element `0` of the sorted array yields the earliest element whose
comparator key is minimal.  We compute it directly as a left fold that
replaces the accumulator only on a strictly smaller key. -/
def sortHead : List SMTPServer → Option SMTPServer
  | [] => none
  | x :: xs => some (xs.foldl pickBetter x)

/-- `getNextAvailableSMTP(campaignId)` restricted to the rotation's server
list: filter with `selectionFilter` (which also performs cooldown
reactivation), return `null` when no server survives, else the head of the
stable sort. -/
def getNextAvailableSMTP (now : Nat) (servers : List SMTPServer) : Option SMTPServer :=
  sortHead (servers.filterMap (selectionFilter now))

/-! ## `markSMTPFailure` / `markSMTPSuccess` -/

/-- Mutation applied by `markSMTPFailure` to the found server:
`failureCount++`, `lastFailure = new Date()`, and deactivation when the
new count reaches `maxFailures`. -/
def failureUpdate (now maxFailures : Nat) (s : SMTPServer) : SMTPServer :=
  let s' := { s with failureCount := s.failureCount + 1, lastFailure := some now }
  if s'.failureCount ≥ maxFailures then { s' with isActive := false } else s'

/-- Mutation applied by `markSMTPSuccess` to the found server:
`sentCount++`, `lastUsed = new Date()`, and
`failureCount = Math.max(0, failureCount - 1)` when positive. -/
def successUpdate (now : Nat) (s : SMTPServer) : SMTPServer :=
  let s' := { s with sentCount := s.sentCount + 1, lastUsed := some now }
  if s'.failureCount > 0 then { s' with failureCount := s'.failureCount - 1 } else s'

/-- `rotation.servers.find(s => s.id === serverId)` followed by an in-place
mutation of the found object: the first server with the matching id is
replaced, everything else is untouched. -/
def updateFirstServer (f : SMTPServer → SMTPServer) (serverId : String) :
    List SMTPServer → List SMTPServer
  | [] => []
  | s :: rest =>
    if s.id = serverId then f s :: rest else s :: updateFirstServer f serverId rest

/-- `markSMTPFailure(campaignId, serverId, error, campaign)` on the
rotation map.  `maxFailures` is `campaign?.maxFailuresPerServer || 3`,
passed here already resolved.  Early-returns leave the map untouched. -/
def markSMTPFailure (rot : JsMap Rotation) (campaignId serverId : String)
    (now maxFailures : Nat) : JsMap Rotation :=
  match rot campaignId with
  | none => rot
  | some r =>
    match r.servers.find? (fun s => s.id = serverId) with
    | none => rot
    | some _ =>
      mapSet rot campaignId
        { r with servers := updateFirstServer (failureUpdate now maxFailures) serverId r.servers }

/-- `markSMTPSuccess(campaignId, serverId)` on the rotation map. -/
def markSMTPSuccess (rot : JsMap Rotation) (campaignId serverId : String)
    (now : Nat) : JsMap Rotation :=
  match rot campaignId with
  | none => rot
  | some r =>
    match r.servers.find? (fun s => s.id = serverId) with
    | none => rot
    | some _ =>
      mapSet rot campaignId
        { r with servers := updateFirstServer (successUpdate now) serverId r.servers }

/-! ## String substitution

`subject.replace(new RegExp(variable, 'g'), value)` with a literal pattern
such as `{{name}}` is a global, left-to-right, non-overlapping literal
replacement (after a match the scan resumes after the inserted
replacement).  We implement it on `List Char` with an explicit fuel equal
to the scanned string's length, so the definition is structural and
evaluates in the kernel. -/

def replaceAllAux (pat rep : List Char) : Nat → List Char → List Char
  | _, [] => []
  | 0, s => s
  | fuel + 1, c :: rest =>
    if pat ≠ [] ∧ pat.isPrefixOf (c :: rest) then
      rep ++ replaceAllAux pat rep fuel (List.drop (pat.length - 1) rest)
    else
      c :: replaceAllAux pat rep fuel rest

/-- Global literal replacement on strings. -/
def sReplace (s pat rep : String) : String :=
  String.mk (replaceAllAux pat.data rep.data s.data.length s.data)

/-- Whether `pat` occurs as a (contiguous) substring of `s`. -/
def occursIn (pat : List Char) : List Char → Bool
  | [] => false
  | c :: rest => pat.isPrefixOf (c :: rest) || occursIn pat rest

/-- `occursIn` on strings. -/
def sOccurs (pat s : String) : Bool :=
  occursIn pat.data s.data

/-- A literal replacement whose pattern does not occur is the identity. -/
theorem replaceAllAux_of_not_occurs (pat rep : List Char) (fuel : Nat) (s : List Char)
    (h : occursIn pat s = false) : replaceAllAux pat rep fuel s = s := by
  induction fuel generalizing s with
  | zero => cases s <;> rfl
  | succ fuel ih =>
    cases s with
    | nil => rfl
    | cons c rest =>
      simp only [occursIn, Bool.or_eq_false_iff] at h
      simp only [replaceAllAux]
      rw [if_neg, ih rest h.2]
      intro hc
      exact absurd hc.2 (by simp [h.1])

/-- `sReplace` is the identity whenever the pattern is absent. -/
theorem sReplace_of_not_occurs (s pat rep : String) (h : sOccurs pat s = false) :
    sReplace s pat rep = s := by
  unfold sReplace
  rw [replaceAllAux_of_not_occurs pat.data rep.data _ s.data h]

/-- `encodeURIComponent` restricted to ASCII input: unreserved characters
(`A-Z a-z 0-9 - _ . ! ~ * ' ( )`) pass through, every other code unit is
percent-encoded. -/
def hexDigitChar (n : Nat) : Char :=
  if n < 10 then Char.ofNat (48 + n) else Char.ofNat (55 + n)

def isUnreservedURIChar (c : Char) : Bool :=
  c.isAlphanum || c = '-' || c = '_' || c = '.' || c = '!' || c = '~' ||
  c = '*' || c = '\'' || c = '(' || c = ')'

def encodeURIComponent (s : String) : String :=
  String.mk (s.data.flatMap (fun c =>
    if isUnreservedURIChar c then [c]
    else ['%', hexDigitChar (c.toNat / 16 % 16), hexDigitChar (c.toNat % 16)]))

/-! ## Campaign records -/

/-- The part of a submitted relay descriptor the embedded operations read
(`name` for logs/error records, `username` for the default sender). -/
structure SMTPConfig where
  name : String
  username : String
  deriving DecidableEq, Repr

/-- An entry of `campaign.errors`, with the ISO timestamp as milliseconds. -/
structure ErrorRecord where
  email : String
  error : String
  smtp : String
  timestamp : Nat
  deriving DecidableEq, Repr

/-- The submitted campaign payload (the fields of `campaignData` that the
embedded operations read). -/
structure CampaignData where
  subject : String
  content : String
  isHTML : Bool
  recipients : List String
  useCustomSubjects : Bool
  customSubjects : List String
  useCustomSenders : Bool
  customSenders : List String
  useSmtpRotation : Bool
  smtpServer : Option SMTPConfig
  delayBetweenEmails : Option Nat
  maxFailuresPerServer : Option Nat
  priority : Option String
  deriving DecidableEq, Repr

/-- A live campaign record: `{ ...campaignData, id, status: 'running',
sent: 0, success: 0, failed: 0, logs: [], errors: [], startTime,
currentEmail: '', priority, retryQueue: [] }`.  Log lines are kept as an
abstracted `List String` (the exact emoji-decorated text is immaterial). -/
structure Campaign where
  id : String
  subject : String
  content : String
  isHTML : Bool
  recipients : List String
  useCustomSubjects : Bool
  customSubjects : List String
  useCustomSenders : Bool
  customSenders : List String
  useSmtpRotation : Bool
  smtpServer : Option SMTPConfig
  delayBetweenEmails : Option Nat
  maxFailuresPerServer : Option Nat
  priority : String
  status : String
  sent : Nat
  success : Nat
  failed : Nat
  logs : List String
  errors : List ErrorRecord
  startTime : Nat
  currentEmail : String
  retryQueue : List String
  deriving DecidableEq, Repr

/-! ## Campaign registry (`startCampaign`, `stopCampaign`) -/

/-- The registry state of the `CampaignManager` singleton. -/
structure ManagerState where
  campaigns : JsMap Campaign
  activeCampaigns : Nat

/-- `this.maxConcurrentCampaigns = 3`. -/
def maxConcurrentCampaigns : Nat := 3

/-- `startCampaign(campaignData)`: capacity check, id allocation
`campaign_<Date.now()>_<Math.random().toString(36).substr(2, 9)>`, record
construction by spreading the submitted data, insertion, active-counter
increment.  `now` is `Date.now()`; `rand9` stands for the drawn random
suffix.  (The subsequent fire-and-forget `processCampaign` call is the
executor modelled separately.) -/
def startCampaign (st : ManagerState) (data : CampaignData) (now : Nat)
    (rand9 : String) : Except String (String × ManagerState) :=
  if st.activeCampaigns ≥ maxConcurrentCampaigns then
    Except.error ("Limite de campagnes simultanees atteinte (" ++
      toString maxConcurrentCampaigns ++ ")")
  else
    let campaignId := "campaign_" ++ toString now ++ "_" ++ rand9
    let campaign : Campaign :=
      { id := campaignId
        subject := data.subject
        content := data.content
        isHTML := data.isHTML
        recipients := data.recipients
        useCustomSubjects := data.useCustomSubjects
        customSubjects := data.customSubjects
        useCustomSenders := data.useCustomSenders
        customSenders := data.customSenders
        useSmtpRotation := data.useSmtpRotation
        smtpServer := data.smtpServer
        delayBetweenEmails := data.delayBetweenEmails
        maxFailuresPerServer := data.maxFailuresPerServer
        priority := jsOrOptStr data.priority "normal"
        status := "running"
        sent := 0
        success := 0
        failed := 0
        logs := []
        errors := []
        startTime := now
        currentEmail := ""
        retryQueue := [] }
    Except.ok (campaignId,
      { campaigns := mapSet st.campaigns campaignId campaign
        activeCampaigns := st.activeCampaigns + 1 })

/-- `stopCampaign(id)`: if the campaign is found, set `status = 'stopped'`
unconditionally, push a log line and return `true`; else return `false`. -/
def stopCampaign (st : ManagerState) (id : String) : Bool × ManagerState :=
  match st.campaigns id with
  | some c =>
    let c' := { c with status := "stopped",
                       logs := c.logs ++ ["Campagne arretee par l utilisateur"] }
    (true, { st with campaigns := mapSet st.campaigns id c' })
  | none => (false, st)

/-! ## Personalizer (`personalizeContent`) -/

/-- The nondeterministic inputs of one `personalizeContent` call: the
`Math.random()` draws for the custom-subject pick, the custom-sender pick
and the `{{ref}}` token, plus the locale-formatted current date and time
(`toLocaleDateString('fr-FR')` / `toLocaleTimeString('fr-FR')`). -/
structure Draws where
  subjDraw : Nat
  senderDraw : Nat
  refDraw : Nat
  dateStr : String
  timeStr : String
  deriving DecidableEq, Repr

/-- JS array indexing `l[i]` where an out-of-range access is `undefined`
and is later coerced to the string `"undefined"` by `String.replace`. -/
def jsIndex (l : List String) (i : Nat) : String :=
  (l.get? i).getD "undefined"

/-- `String.prototype.split` with a one-character separator, on char
lists: `"a@b" → ["a","b"]`, `"" → [""]`, `"@b" → ["","b"]`. -/
def splitOnChar (sep : Char) : List Char → List (List Char)
  | [] => [[]]
  | c :: rest =>
    let r := splitOnChar sep rest
    if c = sep then [] :: r
    else (c :: r.headD []) :: r.tail

/-- `s.split(sep)` for a single-character separator. -/
def jsSplit (s : String) (sep : Char) : List String :=
  (splitOnChar sep s.data).map String.mk

/-- `https://example.com/unsubscribe?email=${encodeURIComponent(recipient)}`. -/
def unsubscribeLink (recipient : String) : String :=
  "https://example.com/unsubscribe?email=" ++ encodeURIComponent recipient

/-- The base-subject choice of `personalizeContent`: a uniformly drawn
element of `customSubjects` when `useCustomSubjects` is set and the pool
is non-empty (`customSubjects[Math.floor(Math.random() * length)]`),
otherwise `campaign.subject`. -/
def chooseSubject (c : Campaign) (subjDraw : Nat) : String :=
  if c.useCustomSubjects = true ∧ c.customSubjects ≠ [] then
    c.customSubjects.getD (subjDraw % c.customSubjects.length) ""
  else c.subject

/-- The `fromName` choice of `personalizeContent`: a uniformly drawn
element of `customSenders` when `useCustomSenders` is set and the pool is
non-empty, otherwise
`campaign.smtpServer?.username?.split('@')[0] || 'Expéditeur'`. -/
def chooseFromName (c : Campaign) (senderDraw : Nat) : String :=
  if c.useCustomSenders = true ∧ c.customSenders ≠ [] then
    c.customSenders.getD (senderDraw % c.customSenders.length) ""
  else
    match c.smtpServer with
    | none => "Expéditeur"
    | some srv => jsOrStr (jsIndex (jsSplit srv.username '@') 0) "Expéditeur"

/-- The `variables` object of `personalizeContent`, in insertion order
(the order `Object.entries` iterates). -/
def variablesList (c : Campaign) (recipient : String) (d : Draws) :
    List (String × String) :=
  [("\x7b\x7bname\x7d\x7d", jsIndex (jsSplit recipient '@') 0),
   ("\x7b\x7bemail\x7d\x7d", recipient),
   ("\x7b\x7bdomain\x7d\x7d", jsIndex (jsSplit recipient '@') 1),
   ("\x7b\x7bunsubscribe\x7d\x7d", unsubscribeLink recipient),
   ("\x7b\x7bdate\x7d\x7d", d.dateStr),
   ("\x7b\x7btime\x7d\x7d", d.timeStr),
   ("\x7b\x7bcampaign_id\x7d\x7d", c.id),
   ("\x7b\x7bref\x7d\x7d", "REF" ++ toString (d.refDraw % 100000))]

/-- `Object.entries(variables).forEach(([v, val]) => s = s.replace(new
RegExp(v, 'g'), val))`. -/
def applyVariables (vars : List (String × String)) (s : String) : String :=
  vars.foldl (fun acc pv => sReplace acc pv.1 pv.2) s

/-- The result record of `personalizeContent`. -/
structure Personalized where
  subject : String
  content : String
  fromName : String
  deriving DecidableEq, Repr

/-- `personalizeContent(campaign, recipient)`: choose the base subject,
substitute the variable map into both subject and content, choose the
from-name. -/
def personalizeContent (c : Campaign) (recipient : String) (d : Draws) :
    Personalized :=
  let vars := variablesList c recipient d
  { subject := applyVariables vars (chooseSubject c d.subjDraw)
    content := applyVariables vars c.content
    fromName := chooseFromName c d.senderDraw }

/-! ## Executor counter updates and retry pass -/

/-- Outcome of one `transporter.sendMail` dispatch as the executor sees
it: fulfilled, or rejected with an error. -/
inductive SendOutcome where
  | ok
  | fail (e : SendError) (msg : String)
  deriving DecidableEq, Repr

/-- Main-loop success path of `processCampaign` (one iteration):
`campaign.currentEmail = recipient` at the loop head, then `sent++;
success++` and a success log line. -/
def mainLoopSuccess (c : Campaign) (recipient : String) : Campaign :=
  let c₁ := { c with currentEmail := recipient }
  { c₁ with sent := c₁.sent + 1, success := c₁.success + 1,
            logs := c₁.logs ++ ["envoye avec succes -> " ++ recipient] }

/-- Main-loop failure path of `processCampaign` (one iteration):
`currentEmail = recipient`; inside `sendEmail` the catch block pushes the
recipient onto `retryQueue` when `isRetryableError(error)` and rethrows;
the loop's catch then runs `sent++; failed++`, pushes an error record and
a failure log line.  `smtpName` is the selected relay's name and `now`
the error timestamp. -/
def mainLoopFailure (c : Campaign) (recipient : String) (e : SendError)
    (msg smtpName : String) (now : Nat) : Campaign :=
  let c₁ := { c with currentEmail := recipient }
  let c₂ := if isRetryableError e
            then { c₁ with retryQueue := c₁.retryQueue ++ [recipient] }
            else c₁
  { c₂ with sent := c₂.sent + 1, failed := c₂.failed + 1,
            errors := c₂.errors ++
              [{ email := recipient, error := msg, smtp := smtpName, timestamp := now }],
            logs := c₂.logs ++ ["echec -> " ++ recipient ++ ": " ++ msg] }

/-- One iteration of the `processRetryQueue` loop body: on fulfilment
`success++`; on rejection the `sendEmail` catch again pushes the recipient
onto `retryQueue` when the error is retryable, then `failed++`. -/
def retryStep (c : Campaign) (recipient : String) (o : SendOutcome) : Campaign :=
  match o with
  | SendOutcome.ok =>
    { c with success := c.success + 1, logs := c.logs ++ ["retry reussi -> " ++ recipient] }
  | SendOutcome.fail e _ =>
    let c₁ := if isRetryableError e
              then { c with retryQueue := c.retryQueue ++ [recipient] }
              else c
    { c₁ with failed := c₁.failed + 1, logs := c₁.logs ++ ["retry echoue -> " ++ recipient] }

/-- Observable scheduling events of the retry pass: a send attempt for a
recipient, or an `await setTimeout` pause. -/
inductive RetryEvent where
  | attempt (recipient : String)
  | delayMs (ms : Nat)
  deriving DecidableEq, Repr

/-- The `for (const recipient of retryBatch)` loop of
`processRetryQueue`: break when `status !== 'running'`, otherwise one
`retryStep` per recipient followed by a fixed 2000 ms delay.  `outcome k`
is the result of the `k`-th attempted dispatch. -/
def processRetryQueueAux (outcome : Nat → SendOutcome) :
    Nat → List String → Campaign → Campaign × List RetryEvent
  | _, [], c => (c, [])
  | k, r :: rest, c =>
    if c.status ≠ "running" then (c, [])
    else
      let c' := retryStep c r (outcome k)
      let res := processRetryQueueAux outcome (k + 1) rest c'
      (res.1, RetryEvent.attempt r :: RetryEvent.delayMs 2000 :: res.2)

/-- `processRetryQueue(campaign, transporter)`: `const retryBatch =
campaign.retryQueue.splice(0, 5)` removes the first five entries from the
queue, then the loop runs over the batch. -/
def processRetryQueue (c : Campaign) (outcome : Nat → SendOutcome) :
    Campaign × List RetryEvent :=
  let retryBatch := c.retryQueue.take 5
  let c₀ := { c with retryQueue := c.retryQueue.drop 5 }
  processRetryQueueAux outcome 0 retryBatch c₀

/-! ## Concrete example values used by witnesses and counterexamples -/

/-- A freshly constructed campaign record (as `startCampaign` creates it)
with one recipient and no custom pools. -/
def campaignBase : Campaign :=
  { id := "campaign_1700000000000_k3j9v2m1q"
    subject := "Base"
    content := "Bonjour"
    isHTML := false
    recipients := ["a@x.io"]
    useCustomSubjects := false
    customSubjects := []
    useCustomSenders := false
    customSenders := []
    useSmtpRotation := false
    smtpServer := some { name := "Relay A", username := "bob@x.io" }
    delayBetweenEmails := none
    maxFailuresPerServer := none
    priority := "normal"
    status := "running"
    sent := 0
    success := 0
    failed := 0
    logs := []
    errors := []
    startTime := 1700000000000
    currentEmail := ""
    retryQueue := [] }

/-- A connection-timeout error (retryable transport code). -/
def timeoutError : SendError := { code := some "ETIMEDOUT", responseCode := none }

/-! ## C6 — retry classifier -/

/-- C6: `isRetryableError` returns `true` if and only if the error code is
one of `ETIMEDOUT`, `ECONNRESET`, `ENOTFOUND` or the SMTP response code
lies in `[400, 500)`; in particular an authentication failure (code
`EAUTH`, SMTP response 535) is classified permanent. -/
theorem C6_isRetryableError_characterization (e : SendError) :
    (isRetryableError e = true ↔
      (∃ c, e.code = some c ∧ c ∈ retryableCodes) ∨
      (∃ rc, e.responseCode = some rc ∧ 400 ≤ rc ∧ rc < 500)) ∧
    isRetryableError { code := some "EAUTH", responseCode := some 535 } = false ∧
    isRetryableError { code := some "EAUTH", responseCode := none } = false := by
  refine ⟨?_, by decide, by decide⟩
  obtain ⟨code, rc⟩ := e
  cases code <;> cases rc <;>
    simp [isRetryableError, retryableCodes]

/-! ## C10 — frame property of `markSMTPFailure` / `markSMTPSuccess` -/

/-- C10: marking a failure or a success for a campaign id with no rotation
state, or for a relay id not present in that campaign's rotation, leaves
the whole rotation map (hence every relay's runtime state) unchanged. -/
theorem C10_mark_unknown_is_noop (rot : JsMap Rotation)
    (campaignId serverId : String) (now maxFailures : Nat)
    (h : rot campaignId = none ∨
      ∃ r, rot campaignId = some r ∧
        r.servers.find? (fun s => s.id = serverId) = none) :
    markSMTPFailure rot campaignId serverId now maxFailures = rot ∧
    markSMTPSuccess rot campaignId serverId now = rot := by
  rcases h with h | ⟨r, hr, hfind⟩
  · unfold markSMTPFailure markSMTPSuccess
    rw [h]; exact ⟨rfl, rfl⟩
  · constructor <;> simp only [markSMTPFailure, markSMTPSuccess, hr, hfind]

/-- An example rotation map binding only the key `"c1"`. -/
def rotMapEx : JsMap Rotation :=
  fun k => if k = "c1" then
    some { servers := [{ id := "s1", name := "Relay A", username := "bob@x.io",
                         isActive := true, failureCount := 0, sentCount := 0,
                         lastUsed := none, lastFailure := none,
                         dailyLimit := none, responseTime := none }],
           currentIndex := 0 }
  else none

theorem C10_mark_unknown_is_noop_witness :
    markSMTPFailure rotMapEx "c2" "s1" 7 3 = rotMapEx ∧
    markSMTPSuccess rotMapEx "c2" "s1" 7 = rotMapEx :=
  C10_mark_unknown_is_noop rotMapEx "c2" "s1" 7 3 (Or.inl rfl)

/-! ## C4 — `stopCampaign` -/

/-- C4 (amended): `stopCampaign(id)` sets `status = 'stopped'` and returns
`true` exactly when the campaign is found, regardless of whether its
current status is terminal; when it is not found it returns `false` and
leaves the registry unchanged.  (The source performs no terminal-state
check, so a completed/errored/already-stopped campaign is re-stamped
`stopped` and `true` is returned.) -/
theorem C4_stopCampaign_amended (st : ManagerState) (id : String) :
    (∀ c, st.campaigns id = some c →
      (stopCampaign st id).1 = true ∧
      (stopCampaign st id).2.campaigns id =
        some { c with status := "stopped",
                      logs := c.logs ++ ["Campagne arretee par l utilisateur"] } ∧
      (∀ k, k ≠ id → (stopCampaign st id).2.campaigns k = st.campaigns k) ∧
      (stopCampaign st id).2.activeCampaigns = st.activeCampaigns) ∧
    (st.campaigns id = none → stopCampaign st id = (false, st)) := by
  constructor
  · intro c hc
    refine ⟨?_, ?_, ?_, ?_⟩
    · simp [stopCampaign, hc]
    · simp [stopCampaign, hc, mapSet]
    · intro k hk
      simp [stopCampaign, hc, mapSet, hk]
    · simp [stopCampaign, hc]
  · intro hc
    simp [stopCampaign, hc]

/-- A registry holding a single campaign `"c1"` that has already
terminated with status `completed`. -/
def completedRegistryEx : ManagerState :=
  { campaigns := fun k =>
      if k = "c1" then some { campaignBase with status := "completed" } else none
    activeCampaigns := 0 }

/-- C4 counterexample: stopping a campaign already in the terminal state
`completed` returns `true` and overwrites the status with `stopped`,
whereas the claim demands a `false` return and no transition. -/
theorem C4_counterexample :
    (completedRegistryEx.campaigns "c1").map Campaign.status = some "completed" ∧
    (stopCampaign completedRegistryEx "c1").1 = true ∧
    ((stopCampaign completedRegistryEx "c1").2.campaigns "c1").map Campaign.status
      = some "stopped" := by
  refine ⟨rfl, rfl, ?_⟩
  simp [stopCampaign, completedRegistryEx, mapSet]

theorem C4_stopCampaign_amended_witness :
    (stopCampaign completedRegistryEx "c1").1 = true ∧
    stopCampaign completedRegistryEx "missing" = (false, completedRegistryEx) :=
  ⟨((C4_stopCampaign_amended completedRegistryEx "c1").1
      { campaignBase with status := "completed" } rfl).1,
   (C4_stopCampaign_amended completedRegistryEx "missing").2 rfl⟩

/-! ## C8 — `startCampaign` -/

/-- C8 (amended): `startCampaign` fails with the capacity error whenever
the active-campaign count is at least 3; otherwise it allocates
`campaign_<epoch_ms>_<random-suffix>`, constructs the record with status
`running` (not `pending`: the source never creates a `pending` record),
zero counters and an empty retry queue, inserts it, increments the active
count, and returns the id. -/
theorem C8_startCampaign_amended (st : ManagerState) (data : CampaignData)
    (now : Nat) (rand9 : String) :
    (st.activeCampaigns ≥ 3 →
      startCampaign st data now rand9 =
        Except.error "Limite de campagnes simultanees atteinte (3)") ∧
    (st.activeCampaigns < 3 →
      ∃ c, startCampaign st data now rand9 =
          Except.ok ("campaign_" ++ toString now ++ "_" ++ rand9,
            { campaigns :=
                mapSet st.campaigns ("campaign_" ++ toString now ++ "_" ++ rand9) c
              activeCampaigns := st.activeCampaigns + 1 }) ∧
        c.status = "running" ∧ c.sent = 0 ∧ c.success = 0 ∧ c.failed = 0 ∧
        c.retryQueue = [] ∧ c.recipients = data.recipients ∧
        c.startTime = now ∧
        c.id = "campaign_" ++ toString now ++ "_" ++ rand9) := by
  constructor
  · intro h
    have : st.activeCampaigns ≥ maxConcurrentCampaigns := h
    simp only [startCampaign, if_pos this]
    have h3 : ("Limite de campagnes simultanees atteinte (" ++
        toString maxConcurrentCampaigns ++ ")" : String) =
        "Limite de campagnes simultanees atteinte (3)" := by decide
    rw [h3]
  · intro h
    have hlt : ¬ st.activeCampaigns ≥ maxConcurrentCampaigns := by
      simp only [maxConcurrentCampaigns]; omega
    refine ⟨{ id := "campaign_" ++ toString now ++ "_" ++ rand9,
              subject := data.subject, content := data.content,
              isHTML := data.isHTML, recipients := data.recipients,
              useCustomSubjects := data.useCustomSubjects,
              customSubjects := data.customSubjects,
              useCustomSenders := data.useCustomSenders,
              customSenders := data.customSenders,
              useSmtpRotation := data.useSmtpRotation,
              smtpServer := data.smtpServer,
              delayBetweenEmails := data.delayBetweenEmails,
              maxFailuresPerServer := data.maxFailuresPerServer,
              priority := jsOrOptStr data.priority "normal",
              status := "running", sent := 0, success := 0, failed := 0,
              logs := [], errors := [], startTime := now,
              currentEmail := "", retryQueue := [] },
            ?_, rfl, rfl, rfl, rfl, rfl, rfl, rfl, rfl⟩
    unfold startCampaign
    rw [if_neg hlt]

/-- A submission payload used by the C8 witness and counterexample. -/
def campaignDataEx : CampaignData :=
  { subject := "Base"
    content := "Bonjour"
    isHTML := false
    recipients := ["a@x.io"]
    useCustomSubjects := false
    customSubjects := []
    useCustomSenders := false
    customSenders := []
    useSmtpRotation := false
    smtpServer := some { name := "Relay A", username := "bob@x.io" }
    delayBetweenEmails := none
    maxFailuresPerServer := none
    priority := none }

/-- An empty registry and one at the concurrency cap. -/
def emptyRegistryEx : ManagerState :=
  { campaigns := fun _ => none, activeCampaigns := 0 }

def fullRegistryEx : ManagerState :=
  { campaigns := fun _ => none, activeCampaigns := 3 }

/-- C8 counterexample: a successful submission constructs the record with
status `running`, not `pending` as the claim states. -/
theorem C8_counterexample :
    (match startCampaign emptyRegistryEx campaignDataEx 1700000000000 "k3j9v2m1q" with
     | Except.ok p => (p.2.campaigns p.1).map Campaign.status
     | Except.error _ => none) = some "running" ∧
    ("running" : String) ≠ "pending" := by
  constructor
  · simp [startCampaign, emptyRegistryEx, maxConcurrentCampaigns, mapSet]
  · decide

theorem C8_startCampaign_amended_witness :
    (startCampaign fullRegistryEx campaignDataEx 1700000000000 "k3j9v2m1q" =
      Except.error "Limite de campagnes simultanees atteinte (3)") ∧
    (∃ c, startCampaign emptyRegistryEx campaignDataEx 1700000000000 "k3j9v2m1q" =
        Except.ok ("campaign_" ++ toString 1700000000000 ++ "_" ++ "k3j9v2m1q",
          { campaigns := mapSet emptyRegistryEx.campaigns
              ("campaign_" ++ toString 1700000000000 ++ "_" ++ "k3j9v2m1q") c
            activeCampaigns := emptyRegistryEx.activeCampaigns + 1 }) ∧
      c.status = "running" ∧ c.sent = 0 ∧ c.success = 0 ∧ c.failed = 0 ∧
      c.retryQueue = [] ∧ c.recipients = campaignDataEx.recipients ∧
      c.startTime = 1700000000000 ∧
      c.id = "campaign_" ++ toString 1700000000000 ++ "_" ++ "k3j9v2m1q") :=
  ⟨(C8_startCampaign_amended fullRegistryEx campaignDataEx 1700000000000 "k3j9v2m1q").1
      (by decide),
   (C8_startCampaign_amended emptyRegistryEx campaignDataEx 1700000000000 "k3j9v2m1q").2
      (by decide)⟩

/-! ## C1 — the counter equation `sent = success + failed` -/

/-- The claimed invariant. -/
def counterInv (c : Campaign) : Prop :=
  c.sent = c.success + c.failed

instance (c : Campaign) : Decidable (counterInv c) := by
  unfold counterInv; infer_instance

/-- C1 (amended): the two main-loop update paths preserve
`sent = success + failed`, but each retry-pass attempt (success or
failure) increments `success + failed` by one while leaving `sent`
unchanged, so after a retry pass of `k` attempts
`success + failed = sent + k`; the equation holds at all times only up to
the end of the main loop. -/
theorem C1_counter_equation_amended :
    (∀ (c : Campaign) (r : String), counterInv c → counterInv (mainLoopSuccess c r)) ∧
    (∀ (c : Campaign) (r : String) (e : SendError) (msg nm : String) (t : Nat),
      counterInv c → counterInv (mainLoopFailure c r e msg nm t)) ∧
    (∀ (c : Campaign) (r : String) (o : SendOutcome),
      (retryStep c r o).sent = c.sent ∧
      (retryStep c r o).success + (retryStep c r o).failed
        = c.success + c.failed + 1) := by
  refine ⟨?_, ?_, ?_⟩
  · intro c r h
    simp only [counterInv, mainLoopSuccess] at *
    omega
  · intro c r e msg nm t h
    simp only [counterInv, mainLoopFailure] at *
    split <;> simp <;> omega
  · intro c r o
    cases o with
    | ok =>
      refine ⟨rfl, ?_⟩
      simp only [retryStep]
      omega
    | fail e msg =>
      simp only [retryStep]
      split <;> simp <;> omega

/-- The campaign after one main-loop failure on the single recipient
(timeout, retryable: the recipient lands on the retry queue). -/
def failedOnceEx : Campaign :=
  mainLoopFailure campaignBase "a@x.io" timeoutError "timeout" "Relay A" 1700000000500

/-- C1 counterexample: starting from a freshly created campaign, one
main-loop failure keeps `sent = success + failed` (1 = 0 + 1), but the
subsequent successful retry attempt yields `sent = 1`, `success = 1`,
`failed = 1`, violating the equation — so the retry-pass paths do not
preserve it. -/
theorem C1_counterexample :
    counterInv campaignBase ∧
    counterInv failedOnceEx ∧
    ¬ counterInv (retryStep failedOnceEx "a@x.io" SendOutcome.ok) := by
  decide

theorem C1_counter_equation_amended_witness :
    counterInv (mainLoopSuccess campaignBase "a@x.io") ∧
    counterInv failedOnceEx ∧
    (retryStep failedOnceEx "a@x.io" SendOutcome.ok).sent = failedOnceEx.sent :=
  ⟨C1_counter_equation_amended.1 campaignBase "a@x.io" (by decide),
   C1_counter_equation_amended.2.1 campaignBase "a@x.io" timeoutError "timeout" "Relay A"
     1700000000500 (by decide),
   (C1_counter_equation_amended.2.2 failedOnceEx "a@x.io" SendOutcome.ok).1⟩

/-! ## C3 — relay deactivation and cooldown -/

/-- `Array.prototype.find` locates the first element with the given id
when everything before it has a different id. -/
theorem find?_id_append (l₁ : List SMTPServer) (s : SMTPServer) (l₂ : List SMTPServer)
    (sid : String) (h₁ : ∀ x ∈ l₁, x.id ≠ sid) (hs : s.id = sid) :
    (l₁ ++ s :: l₂).find? (fun x => x.id = sid) = some s := by
  induction l₁ with
  | nil => simp [List.find?, hs]
  | cons a l₁ ih =>
    have ha : a.id ≠ sid := h₁ a (by simp)
    simp only [List.cons_append, List.find?, decide_eq_false ha, List.append_eq]
    exact ih fun x hx => h₁ x (by simp [hx])

/-- Updating the first server with the given id rewrites exactly the
element after a prefix free of that id. -/
theorem updateFirstServer_append (f : SMTPServer → SMTPServer) (sid : String)
    (l₁ : List SMTPServer) (s : SMTPServer) (l₂ : List SMTPServer)
    (h₁ : ∀ x ∈ l₁, x.id ≠ sid) (hs : s.id = sid) :
    updateFirstServer f sid (l₁ ++ s :: l₂) = l₁ ++ f s :: l₂ := by
  induction l₁ with
  | nil => simp [updateFirstServer, hs]
  | cons a l₁ ih =>
    have ha : a.id ≠ sid := h₁ a (by simp)
    simp only [List.cons_append, updateFirstServer, List.append_eq]
    rw [if_neg ha, ih fun x hx => h₁ x (by simp [hx])]

/-- C3 (amended): when a relay's `failure_count` is `max_failures - 1`,
the next `markSMTPFailure` sets `failure_count = max_failures`,
`last_failure = now` and `active = false`; the relay is treated as active
again (with `failure_count` reset to 0) by the selection-time cooldown
check exactly for selection instants `now'` with
`now' > last_failure + 30 min` — strictly *more* than 30 minutes after the
failure, not at the 30-minute mark itself. -/
theorem C3_markSMTPFailure_cooldown_amended
    (rot : JsMap Rotation) (campaignId serverId : String) (now maxFailures : Nat)
    (r : Rotation) (l₁ l₂ : List SMTPServer) (s : SMTPServer)
    (hr : rot campaignId = some r)
    (hservers : r.servers = l₁ ++ s :: l₂)
    (h₁ : ∀ x ∈ l₁, x.id ≠ serverId)
    (hs : s.id = serverId)
    (hfc : s.failureCount + 1 = maxFailures) :
    ((markSMTPFailure rot campaignId serverId now maxFailures) campaignId =
      some { r with servers := l₁ ++
        { s with failureCount := maxFailures, lastFailure := some now,
                 isActive := false } :: l₂ }) ∧
    (∀ (s' : SMTPServer) (t now' : Nat), s'.isActive = false →
      s'.lastFailure = some t → s'.sentCount < effectiveDailyLimit s' →
      (selectionFilter now' s' =
          some { s' with isActive := true, failureCount := 0 } ↔
        t + 30 * 60000 < now')) := by
  constructor
  · have hfind := find?_id_append l₁ s l₂ serverId h₁ hs
    have hupd := updateFirstServer_append (failureUpdate now maxFailures)
      serverId l₁ s l₂ h₁ hs
    simp only [markSMTPFailure, hr, hservers, hfind, hupd]
    have hfu : failureUpdate now maxFailures s =
        { s with failureCount := maxFailures, lastFailure := some now,
                 isActive := false } := by
      unfold failureUpdate
      rw [if_pos (by simp; omega)]
      simp [hfc]
    rw [hfu]
    simp [mapSet]
  · intro s' t now' hact hlf hsent
    unfold selectionFilter
    rw [hact, hlf]
    simp only [if_true]
    by_cases hcd : t + 30 * 60000 < now'
    · rw [if_pos hcd, if_neg (by simpa [effectiveDailyLimit] using hsent)]
      simp [hcd]
    · rw [if_neg hcd]
      simp [hcd]

/-- A relay one failure away from deactivation (`failure_count = 2`,
default `max_failures = 3`). -/
def almostDeadRelayEx : SMTPServer :=
  { id := "s1", name := "Relay A", username := "bob@x.io", isActive := true,
    failureCount := 2, sentCount := 0, lastUsed := none, lastFailure := none,
    dailyLimit := none, responseTime := none }

/-- A rotation map holding that single relay for campaign `"c1"`. -/
def rotMapEx2 : JsMap Rotation :=
  fun k => if k = "c1" then
    some { servers := [almostDeadRelayEx], currentIndex := 0 }
  else none

/-- The relay after the deactivating third failure at `now = 1000`. -/
def deadRelayEx : SMTPServer :=
  { almostDeadRelayEx with failureCount := 3, lastFailure := some 1000,
                           isActive := false }

/-- The relay after cooldown reactivation. -/
def revivedRelayEx : SMTPServer :=
  { almostDeadRelayEx with failureCount := 0, lastFailure := some 1000,
                           isActive := true }

/-- C3 counterexample: after the deactivating failure at `now = 1000`, the
selection-time cooldown check at exactly 30 minutes later
(`now' = 1000 + 30·60000`) still refuses the relay; only strictly after
that instant is it reactivated.  The claim's "becomes active again exactly
30 minutes after that failure" therefore fails at the 30-minute mark. -/
theorem C3_counterexample :
    ((markSMTPFailure rotMapEx2 "c1" "s1" 1000 3) "c1").map Rotation.servers =
      some [deadRelayEx] ∧
    selectionFilter (1000 + 30 * 60000) deadRelayEx = none ∧
    selectionFilter (1000 + 30 * 60000 + 1) deadRelayEx = some revivedRelayEx := by
  decide

theorem C3_markSMTPFailure_cooldown_amended_witness :
    (markSMTPFailure rotMapEx2 "c1" "s1" 1000 3) "c1" =
      some { servers := [] ++ deadRelayEx :: [], currentIndex := 0 } :=
  (C3_markSMTPFailure_cooldown_amended rotMapEx2 "c1" "s1" 1000 3
    { servers := [almostDeadRelayEx], currentIndex := 0 } [] [] almostDeadRelayEx
    rfl rfl (by simp) rfl (by decide)).1

/-! ## C5 — the retry pass -/

/-- The recipients a run of the retry loop pushes back onto `retryQueue`:
exactly those whose attempt fails with a retryable error (the `sendEmail`
catch block fires again during the retry pass). -/
def reEnqueuedRetries (outcome : Nat → SendOutcome) : Nat → List String → List String
  | _, [] => []
  | k, r :: rest =>
    match outcome k with
    | SendOutcome.ok => reEnqueuedRetries outcome (k + 1) rest
    | SendOutcome.fail e _ =>
      if isRetryableError e then r :: reEnqueuedRetries outcome (k + 1) rest
      else reEnqueuedRetries outcome (k + 1) rest

theorem retryStep_status (c : Campaign) (r : String) (o : SendOutcome) :
    (retryStep c r o).status = c.status := by
  cases o with
  | ok => rfl
  | fail e msg =>
    simp only [retryStep]
    split <;> rfl

theorem retryStep_sent (c : Campaign) (r : String) (o : SendOutcome) :
    (retryStep c r o).sent = c.sent := by
  cases o with
  | ok => rfl
  | fail e msg =>
    simp only [retryStep]
    split <;> rfl

theorem retryStep_retryQueue (c : Campaign) (r : String) (o : SendOutcome) :
    (retryStep c r o).retryQueue =
      c.retryQueue ++
        (match o with
         | SendOutcome.ok => []
         | SendOutcome.fail e _ => if isRetryableError e then [r] else []) := by
  cases o with
  | ok => simp [retryStep]
  | fail e msg =>
    simp only [retryStep]
    split <;> simp_all

/-- Behaviour of the retry loop on a batch while the campaign stays
`running`: one attempt per batch entry, each followed by the fixed
2000 ms delay, `sent` and `status` untouched, and the retryably-failed
entries appended to the queue. -/
theorem processRetryQueueAux_spec (outcome : Nat → SendOutcome) :
    ∀ (batch : List String) (k : Nat) (c : Campaign), c.status = "running" →
      (processRetryQueueAux outcome k batch c).1.retryQueue =
        c.retryQueue ++ reEnqueuedRetries outcome k batch ∧
      (processRetryQueueAux outcome k batch c).1.sent = c.sent ∧
      (processRetryQueueAux outcome k batch c).1.status = c.status ∧
      (processRetryQueueAux outcome k batch c).2 =
        batch.flatMap (fun r => [RetryEvent.attempt r, RetryEvent.delayMs 2000]) := by
  intro batch
  induction batch with
  | nil =>
    intro k c hc
    simp [processRetryQueueAux, reEnqueuedRetries]
  | cons r rest ih =>
    intro k c hc
    have hrun : ¬ c.status ≠ "running" := by simp [hc]
    have hc' : (retryStep c r (outcome k)).status = "running" := by
      rw [retryStep_status]; exact hc
    obtain ⟨hq, hs, hst, hev⟩ := ih (k + 1) (retryStep c r (outcome k)) hc'
    simp only [processRetryQueueAux, if_neg hrun]
    refine ⟨?_, ?_, ?_, ?_⟩
    · rw [hq, retryStep_retryQueue, List.append_assoc]
      simp only [reEnqueuedRetries]
      cases houtcome : outcome k with
      | ok => simp
      | fail e msg =>
        by_cases hre : isRetryableError e = true <;> simp [hre]
    · rw [hs, retryStep_sent]
    · rw [hst, retryStep_status]
    · rw [hev]
      simp [List.flatMap_cons]

/-- C5 (amended): when the campaign is still `running` after the main
loop, the retry pass drains exactly `min 5 |retry_queue|` entries,
attempts each exactly once with a fixed 2-second delay after every
attempt, and leaves `sent` unchanged; however a recipient whose retry
attempt fails with a *retryable* error is pushed back onto `retry_queue`
by the `sendEmail` catch block (it is merely never re-attempted, because
the retry pass runs only once). -/
theorem C5_processRetryQueue_amended (c : Campaign) (outcome : Nat → SendOutcome)
    (hc : c.status = "running") :
    (processRetryQueue c outcome).2 =
      (c.retryQueue.take 5).flatMap
        (fun r => [RetryEvent.attempt r, RetryEvent.delayMs 2000]) ∧
    (processRetryQueue c outcome).1.retryQueue =
      c.retryQueue.drop 5 ++ reEnqueuedRetries outcome 0 (c.retryQueue.take 5) ∧
    (c.retryQueue.take 5).length ≤ 5 ∧
    (processRetryQueue c outcome).1.sent = c.sent := by
  obtain ⟨hq, hs, _, hev⟩ := processRetryQueueAux_spec outcome (c.retryQueue.take 5) 0
    { c with retryQueue := c.retryQueue.drop 5 } (by simp [hc])
  refine ⟨?_, ?_, ?_, ?_⟩
  · exact hev
  · simpa using hq
  · exact List.length_take_le 5 c.retryQueue
  · simpa using hs

/-- A campaign that finished its main loop with one retryable failure:
the failed recipient sits on the retry queue. -/
def retryPendingEx : Campaign :=
  { campaignBase with sent := 1, failed := 1, retryQueue := ["a@x.io"] }

/-- Every retry attempt times out (a retryable transport error). -/
def timeoutOutcome : Nat → SendOutcome :=
  fun _ => SendOutcome.fail timeoutError "timeout"

/-- C5 counterexample: the single drained recipient fails its retry with a
retryable error and is pushed back onto `retry_queue`, so after the retry
pass the queue again contains the recipient — contradicting "never
re-enqueues a recipient onto retry_queue when its retry attempt fails
again". -/
theorem C5_counterexample :
    (processRetryQueue retryPendingEx timeoutOutcome).1.retryQueue = ["a@x.io"] ∧
    (processRetryQueue retryPendingEx timeoutOutcome).2 =
      [RetryEvent.attempt "a@x.io", RetryEvent.delayMs 2000] := by
  decide

theorem C5_processRetryQueue_amended_witness :
    (processRetryQueue retryPendingEx timeoutOutcome).2 =
      (retryPendingEx.retryQueue.take 5).flatMap
        (fun r => [RetryEvent.attempt r, RetryEvent.delayMs 2000]) ∧
    (processRetryQueue retryPendingEx timeoutOutcome).1.retryQueue =
      retryPendingEx.retryQueue.drop 5 ++
        reEnqueuedRetries timeoutOutcome 0 (retryPendingEx.retryQueue.take 5) ∧
    (retryPendingEx.retryQueue.take 5).length ≤ 5 ∧
    (processRetryQueue retryPendingEx timeoutOutcome).1.sent = retryPendingEx.sent :=
  C5_processRetryQueue_amended retryPendingEx timeoutOutcome (by decide)

/-! ## C7 — subject and sender choice -/

/-- An index drawn modulo the pool length lands in the pool. -/
theorem getD_mod_mem (l : List String) (h : l ≠ []) (n : Nat) :
    l.getD (n % l.length) "" ∈ l := by
  have hlt : n % l.length < l.length := Nat.mod_lt _ (List.length_pos.mpr h)
  rw [List.getD_eq_getElem l "" hlt]
  exact List.getElem_mem hlt

/-- C7 (amended): the base subject is drawn from `custom_subjects` — each
pool element being reachable by some `Math.random()` draw and every draw
landing in the pool — exactly when *both* the `useCustomSubjects` flag is
set *and* the pool is non-empty; otherwise the template subject is used.
Symmetrically, `from_name` is drawn from `custom_senders` exactly when
`useCustomSenders` is set and the pool is non-empty, and otherwise
defaults to the local part of the configured relay user (with the literal
fallback when that local part is empty).  A non-empty pool alone is not
sufficient: with the flag cleared the pool is ignored. -/
theorem C7_personalize_choice_amended (c : Campaign) :
    (c.useCustomSubjects = true → c.customSubjects ≠ [] →
      (∀ dr, chooseSubject c dr ∈ c.customSubjects) ∧
      (∀ i, i < c.customSubjects.length →
        chooseSubject c i = c.customSubjects.getD i "")) ∧
    (c.useCustomSubjects = false ∨ c.customSubjects = [] →
      ∀ dr, chooseSubject c dr = c.subject) ∧
    (c.useCustomSenders = true → c.customSenders ≠ [] →
      (∀ dr, chooseFromName c dr ∈ c.customSenders) ∧
      (∀ i, i < c.customSenders.length →
        chooseFromName c i = c.customSenders.getD i "")) ∧
    (c.useCustomSenders = false ∨ c.customSenders = [] →
      ∀ srv, c.smtpServer = some srv → ∀ dr,
        chooseFromName c dr = jsOrStr (jsIndex (jsSplit srv.username '@') 0) "Expéditeur") ∧
    (∀ recipient d, (personalizeContent c recipient d).subject =
        applyVariables (variablesList c recipient d) (chooseSubject c d.subjDraw) ∧
      (personalizeContent c recipient d).fromName = chooseFromName c d.senderDraw) := by
  refine ⟨?_, ?_, ?_, ?_, ?_⟩
  · intro hflag hne
    constructor
    · intro dr
      unfold chooseSubject
      rw [if_pos ⟨hflag, hne⟩]
      exact getD_mod_mem _ hne dr
    · intro i hi
      unfold chooseSubject
      rw [if_pos ⟨hflag, hne⟩, Nat.mod_eq_of_lt hi]
  · intro h dr
    unfold chooseSubject
    rcases h with h | h
    · rw [if_neg]; simp [h]
    · rw [if_neg]; simp [h]
  · intro hflag hne
    constructor
    · intro dr
      unfold chooseFromName
      rw [if_pos ⟨hflag, hne⟩]
      exact getD_mod_mem _ hne dr
    · intro i hi
      unfold chooseFromName
      rw [if_pos ⟨hflag, hne⟩, Nat.mod_eq_of_lt hi]
  · intro h srv hsrv dr
    unfold chooseFromName
    rw [if_neg]
    · simp only [hsrv]
    · rcases h with h | h <;> simp [h]
  · intro recipient d
    exact ⟨rfl, rfl⟩

/-- A campaign whose custom subject/sender pools are non-empty but whose
`useCustomSubjects` / `useCustomSenders` flags are cleared. -/
def poolsIgnoredEx : Campaign :=
  { campaignBase with customSubjects := ["Offre speciale"],
                      customSenders := ["Alice"] }

/-- A fixed set of draws for the personalizer examples. -/
def drawsEx : Draws :=
  { subjDraw := 0, senderDraw := 0, refDraw := 42,
    dateStr := "11/10/2026", timeStr := "12:00:00" }

/-- C7 counterexample: both pools are non-empty, yet with the use-flags
cleared the subject is the template `"Base"` (not the pooled
`"Offre speciale"`) and the from-name is the relay user's local part
`"bob"` (not the pooled `"Alice"`) — so "whenever custom_subjects
(custom_senders) is non-empty" is not the condition the code applies. -/
theorem C7_counterexample :
    poolsIgnoredEx.customSubjects = ["Offre speciale"] ∧
    poolsIgnoredEx.customSenders = ["Alice"] ∧
    (personalizeContent poolsIgnoredEx "a@x.io" drawsEx).subject = "Base" ∧
    (personalizeContent poolsIgnoredEx "a@x.io" drawsEx).fromName = "bob" ∧
    ("Base" : String) ∉ poolsIgnoredEx.customSubjects ∧
    ("bob" : String) ∉ poolsIgnoredEx.customSenders := by
  decide

/-- A campaign actually using both pools. -/
def poolsUsedEx : Campaign :=
  { campaignBase with useCustomSubjects := true,
                      customSubjects := ["Offre speciale", "Promo"],
                      useCustomSenders := true,
                      customSenders := ["Alice", "Carol"] }

theorem C7_personalize_choice_amended_witness :
    (chooseSubject poolsUsedEx 1 ∈ poolsUsedEx.customSubjects) ∧
    (chooseSubject poolsUsedEx 1 = poolsUsedEx.customSubjects.getD 1 "") ∧
    (chooseFromName poolsUsedEx 0 ∈ poolsUsedEx.customSenders) ∧
    (chooseFromName poolsIgnoredEx 0 =
      jsOrStr (jsIndex (jsSplit "bob@x.io" '@') 0) "Expéditeur") :=
  ⟨((C7_personalize_choice_amended poolsUsedEx).1 rfl (by decide)).1 1,
   ((C7_personalize_choice_amended poolsUsedEx).1 rfl (by decide)).2 1 (by decide),
   ((C7_personalize_choice_amended poolsUsedEx).2.2.1 rfl (by decide)).1 0,
   (C7_personalize_choice_amended poolsIgnoredEx).2.2.2.1 (Or.inl rfl)
     { name := "Relay A", username := "bob@x.io" } rfl 0⟩

/-! ## C9 — personalization is the identity except for date/time/ref -/

/-- C9: when the custom pools are empty and the subject and body templates
contain none of the markers `{{name}}`, `{{email}}`, `{{domain}}`,
`{{unsubscribe}}`, `{{campaign_id}}`, `personalizeContent` returns the
templates with only `{{date}}`, `{{time}}` and `{{ref}}` substituted (in
that order).  The `{{campaign_id}}` absence hypotheses are stated on the
intermediate string after the date/time substitution, since that marker is
replaced after `{{date}}`/`{{time}}` in the source's iteration order. -/
theorem C9_personalize_template_identity (c : Campaign) (recipient : String) (d : Draws)
    (hsubj : c.customSubjects = []) (_hsend : c.customSenders = [])
    (hs1 : sOccurs "\x7b\x7bname\x7d\x7d" c.subject = false)
    (hs2 : sOccurs "\x7b\x7bemail\x7d\x7d" c.subject = false)
    (hs3 : sOccurs "\x7b\x7bdomain\x7d\x7d" c.subject = false)
    (hs4 : sOccurs "\x7b\x7bunsubscribe\x7d\x7d" c.subject = false)
    (hs5 : sOccurs "\x7b\x7bcampaign_id\x7d\x7d"
      (sReplace (sReplace c.subject "\x7b\x7bdate\x7d\x7d" d.dateStr)
        "\x7b\x7btime\x7d\x7d" d.timeStr) = false)
    (hb1 : sOccurs "\x7b\x7bname\x7d\x7d" c.content = false)
    (hb2 : sOccurs "\x7b\x7bemail\x7d\x7d" c.content = false)
    (hb3 : sOccurs "\x7b\x7bdomain\x7d\x7d" c.content = false)
    (hb4 : sOccurs "\x7b\x7bunsubscribe\x7d\x7d" c.content = false)
    (hb5 : sOccurs "\x7b\x7bcampaign_id\x7d\x7d"
      (sReplace (sReplace c.content "\x7b\x7bdate\x7d\x7d" d.dateStr)
        "\x7b\x7btime\x7d\x7d" d.timeStr) = false) :
    (personalizeContent c recipient d).subject =
      sReplace (sReplace (sReplace c.subject "\x7b\x7bdate\x7d\x7d" d.dateStr)
        "\x7b\x7btime\x7d\x7d" d.timeStr)
        "\x7b\x7bref\x7d\x7d" ("REF" ++ toString (d.refDraw % 100000)) ∧
    (personalizeContent c recipient d).content =
      sReplace (sReplace (sReplace c.content "\x7b\x7bdate\x7d\x7d" d.dateStr)
        "\x7b\x7btime\x7d\x7d" d.timeStr)
        "\x7b\x7bref\x7d\x7d" ("REF" ++ toString (d.refDraw % 100000)) := by
  have hcs : chooseSubject c d.subjDraw = c.subject := by
    unfold chooseSubject
    rw [if_neg]
    simp [hsubj]
  constructor
  · simp only [personalizeContent, applyVariables, variablesList,
      List.foldl_cons, List.foldl_nil, hcs]
    rw [sReplace_of_not_occurs c.subject _ _ hs1,
        sReplace_of_not_occurs c.subject _ _ hs2,
        sReplace_of_not_occurs c.subject _ _ hs3,
        sReplace_of_not_occurs c.subject _ _ hs4,
        sReplace_of_not_occurs _ _ _ hs5]
  · simp only [personalizeContent, applyVariables, variablesList,
      List.foldl_cons, List.foldl_nil]
    rw [sReplace_of_not_occurs c.content _ _ hb1,
        sReplace_of_not_occurs c.content _ _ hb2,
        sReplace_of_not_occurs c.content _ _ hb3,
        sReplace_of_not_occurs c.content _ _ hb4,
        sReplace_of_not_occurs _ _ _ hb5]

/-- A campaign with markerless templates except for `{{date}}`, `{{time}}`
and `{{ref}}`. -/
def plainTemplateEx : Campaign :=
  { campaignBase with subject := "Hello \x7b\x7bdate\x7d\x7d",
                      content := "Hi \x7b\x7btime\x7d\x7d ref \x7b\x7bref\x7d\x7d" }

theorem C9_personalize_template_identity_witness :
    (personalizeContent plainTemplateEx "a@x.io" drawsEx).subject =
      sReplace (sReplace (sReplace plainTemplateEx.subject "\x7b\x7bdate\x7d\x7d"
          drawsEx.dateStr) "\x7b\x7btime\x7d\x7d" drawsEx.timeStr)
        "\x7b\x7bref\x7d\x7d" ("REF" ++ toString (drawsEx.refDraw % 100000)) ∧
    (personalizeContent plainTemplateEx "a@x.io" drawsEx).content =
      sReplace (sReplace (sReplace plainTemplateEx.content "\x7b\x7bdate\x7d\x7d"
          drawsEx.dateStr) "\x7b\x7btime\x7d\x7d" drawsEx.timeStr)
        "\x7b\x7bref\x7d\x7d" ("REF" ++ toString (drawsEx.refDraw % 100000)) :=
  C9_personalize_template_identity plainTemplateEx "a@x.io" drawsEx
    rfl rfl (by decide) (by decide) (by decide) (by decide) (by decide)
    (by decide) (by decide) (by decide) (by decide) (by decide)

/-! ## C2 — relay selection -/

/-- The comparator order is transitive. -/
theorem serverLt_trans (a b c : SMTPServer)
    (h1 : serverLt a b = true) (h2 : serverLt b c = true) :
    serverLt a c = true := by
  simp only [serverLt, Bool.or_eq_true, Bool.and_eq_true,
    decide_eq_true_eq] at h1 h2 ⊢
  omega

/-- The comparator is a total preorder: from `a < b` and `¬(c < b)` it
follows that `a < c`. -/
theorem serverLt_of_lt_of_not_lt (a b c : SMTPServer)
    (h1 : serverLt a b = true) (h2 : serverLt c b = false) :
    serverLt a c = true := by
  have h2' : ¬ serverLt c b = true := by simp [h2]
  simp only [serverLt, Bool.or_eq_true, Bool.and_eq_true,
    decide_eq_true_eq] at h1 h2' ⊢
  omega

/-- The left fold computing `sort(cmp)[0]` returns the earliest element of
minimal comparator key: everything before it in the list is strictly
greater, everything after it is not strictly smaller. -/
theorem foldl_pickBetter_spec (xs : List SMTPServer) :
    ∀ x : SMTPServer, ∃ l₁ l₂,
      x :: xs = l₁ ++ (xs.foldl pickBetter x) :: l₂ ∧
      (∀ y ∈ l₁, serverLt (xs.foldl pickBetter x) y = true) ∧
      (∀ y ∈ l₂, serverLt y (xs.foldl pickBetter x) = false) := by
  induction xs with
  | nil =>
    intro x
    exact ⟨[], [], rfl, by simp, by simp⟩
  | cons y ys ih =>
    intro x
    by_cases h : serverLt y x = true
    · have hstep : pickBetter x y = y := by simp [pickBetter, h]
      obtain ⟨l₁, l₂, heq, hb, ha⟩ := ih y
      rw [List.foldl_cons, hstep]
      refine ⟨x :: l₁, l₂, ?_, ?_, ha⟩
      · rw [List.cons_append, ← heq]
      · intro z hz
        rcases List.mem_cons.mp hz with hz | hz
        · subst hz
          cases l₁ with
          | nil =>
            have : y = ys.foldl pickBetter y := by
              have := heq
              simp only [List.nil_append] at this
              exact (List.cons.injEq _ _ _ _).mp this |>.1
            rw [← this]
            exact h
          | cons w l₁' =>
            have hw : w = y := by
              have := heq
              simp only [List.cons_append] at this
              exact ((List.cons.injEq _ _ _ _).mp this).1.symm
            have hrw : serverLt (ys.foldl pickBetter y) w = true :=
              hb w (by simp)
            rw [hw] at hrw
            exact serverLt_trans _ _ _ hrw h
        · exact hb z hz
    · have hstep : pickBetter x y = x := by simp [pickBetter, h]
      have hbool : serverLt y x = false := by
        cases hxy : serverLt y x
        · rfl
        · exact absurd hxy h
      obtain ⟨l₁, l₂, heq, hb, ha⟩ := ih x
      rw [List.foldl_cons, hstep]
      cases l₁ with
      | nil =>
        have hx : x = ys.foldl pickBetter x ∧ l₂ = ys := by
          have := heq
          simp only [List.nil_append] at this
          exact ⟨((List.cons.injEq _ _ _ _).mp this).1,
                 (((List.cons.injEq _ _ _ _).mp this).2).symm⟩
        refine ⟨[], y :: ys, ?_, by simp, ?_⟩
        · simp [← hx.1]
        · intro z hz
          rcases List.mem_cons.mp hz with hz | hz
          · subst hz
            rw [← hx.1]
            exact hbool
          · rw [← hx.2] at hz
            exact ha z hz
      | cons w l₁' =>
        have hw : w = x ∧ ys = l₁' ++ (ys.foldl pickBetter x) :: l₂ := by
          have := heq
          simp only [List.cons_append] at this
          exact ⟨((List.cons.injEq _ _ _ _).mp this).1.symm,
                 ((List.cons.injEq _ _ _ _).mp this).2⟩
        have hrx : serverLt (ys.foldl pickBetter x) x = true := by
          have := hb w (by simp)
          rwa [hw.1] at this
        refine ⟨x :: y :: l₁', l₂, ?_, ?_, ha⟩
        · simp only [List.cons_append]
          rw [← hw.2]
        · intro z hz
          rcases List.mem_cons.mp hz with hz | hz
          · subst hz; exact hrx
          · rcases List.mem_cons.mp hz with hz | hz
            · subst hz
              exact serverLt_of_lt_of_not_lt _ x _ hrx hbool
            · exact hb z (by simp [hz])

/-- A server accepted by the selection filter is active and strictly below
its effective daily limit (given the data-model invariant that an inactive
server has `last_failure` set). -/
theorem selectionFilter_sound (now : Nat) (s s' : SMTPServer)
    (hwf : s.isActive = false → s.lastFailure ≠ none)
    (h : selectionFilter now s = some s') :
    s'.isActive = true ∧ s'.sentCount < effectiveDailyLimit s' := by
  unfold selectionFilter at h
  split at h
  case isTrue hact =>
    split at h
    case h_1 t hLF =>
      split at h
      case isTrue hcd =>
        split at h
        case isTrue => exact absurd h (by simp)
        case isFalse hlim =>
          have hs' : s' = { s with isActive := true, failureCount := 0 } :=
            (Option.some.injEq _ _).mp h |>.symm
          have hsent : s.sentCount < effectiveDailyLimit s :=
            Nat.lt_of_not_le (by simpa using hlim)
          rw [hs']
          exact ⟨rfl, by simpa [effectiveDailyLimit] using hsent⟩
      case isFalse => exact absurd h (by simp)
    case h_2 hLF => exact absurd hLF (hwf hact)
  case isFalse hact =>
    split at h
    case isTrue => exact absurd h (by simp)
    case isFalse hlim =>
      have hs' : s' = s := (Option.some.injEq _ _).mp h |>.symm
      have hA : s.isActive = true := by simpa using hact
      rw [hs']
      exact ⟨hA, Nat.lt_of_not_le (by simpa using hlim)⟩

/-- An active server strictly below its limit passes the filter
unchanged. -/
theorem selectionFilter_active (now : Nat) (s : SMTPServer)
    (hact : s.isActive = true) (hsent : s.sentCount < effectiveDailyLimit s) :
    selectionFilter now s = some s := by
  unfold selectionFilter
  rw [if_neg (by simp [hact]), if_neg (by omega)]

/-- C2: `getNextAvailableSMTP` (per rotation state satisfying the
data-model invariant "inactive ⇒ `last_failure` set") returns `none`
exactly when no relay survives the filter; every survivor is active (after
cooldown processing) and strictly below its effective daily limit (default
500); every active below-limit relay survives; and a returned relay is the
earliest filter survivor of minimal key under the lexicographic comparator
`(failure_count, sent_count, response_time || 0)` — everything before it is
strictly greater, everything after it not smaller — and in particular is
never at its daily limit. -/
theorem C2_getNextAvailableSMTP_selection (now : Nat) (servers : List SMTPServer)
    (hwf : ∀ s ∈ servers, s.isActive = false → s.lastFailure ≠ none) :
    (getNextAvailableSMTP now servers = none ↔
      servers.filterMap (selectionFilter now) = []) ∧
    (∀ s' ∈ servers.filterMap (selectionFilter now),
      s'.isActive = true ∧ s'.sentCount < effectiveDailyLimit s') ∧
    (∀ s ∈ servers, s.isActive = true → s.sentCount < effectiveDailyLimit s →
      s ∈ servers.filterMap (selectionFilter now)) ∧
    (∀ r, getNextAvailableSMTP now servers = some r →
      ∃ l₁ l₂, servers.filterMap (selectionFilter now) = l₁ ++ r :: l₂ ∧
        (∀ y ∈ l₁, serverLt r y = true) ∧
        (∀ y ∈ l₂, serverLt y r = false) ∧
        r.isActive = true ∧ r.sentCount < effectiveDailyLimit r) := by
  have hsound : ∀ s' ∈ servers.filterMap (selectionFilter now),
      s'.isActive = true ∧ s'.sentCount < effectiveDailyLimit s' := by
    intro s' hmem
    obtain ⟨s, hs, hfs⟩ := List.mem_filterMap.mp hmem
    exact selectionFilter_sound now s s' (hwf s hs) hfs
  refine ⟨?_, hsound, ?_, ?_⟩
  · unfold getNextAvailableSMTP sortHead
    cases hc : servers.filterMap (selectionFilter now) <;> simp
  · intro s hs hact hsent
    exact List.mem_filterMap.mpr ⟨s, hs, selectionFilter_active now s hact hsent⟩
  · intro r hr
    unfold getNextAvailableSMTP sortHead at hr
    cases hc : servers.filterMap (selectionFilter now) with
    | nil => rw [hc] at hr; exact absurd hr (by simp)
    | cons x xs =>
      rw [hc] at hr
      have hrx : r = xs.foldl pickBetter x := ((Option.some.injEq _ _).mp hr).symm
      obtain ⟨l₁, l₂, heq, hb, ha⟩ := foldl_pickBetter_spec xs x
      rw [← hrx] at heq hb ha
      have hrmem : r ∈ servers.filterMap (selectionFilter now) := by
        rw [hc, heq]
        exact List.mem_append.mpr (Or.inr (by simp))
      obtain ⟨hract, hrsent⟩ := hsound r hrmem
      exact ⟨l₁, l₂, heq, hb, ha, hract, hrsent⟩

/-- A three-relay fleet: one healthy with a failure, one healthy with
sends, one deactivated and still in cooldown. -/
def serversEx : List SMTPServer :=
  [{ id := "s1", name := "A", username := "a@x.io", isActive := true,
     failureCount := 1, sentCount := 0, lastUsed := none, lastFailure := none,
     dailyLimit := none, responseTime := none },
   { id := "s2", name := "B", username := "b@x.io", isActive := true,
     failureCount := 0, sentCount := 3, lastUsed := none, lastFailure := none,
     dailyLimit := none, responseTime := none },
   { id := "s3", name := "C", username := "c@x.io", isActive := false,
     failureCount := 3, sentCount := 0, lastUsed := none, lastFailure := some 0,
     dailyLimit := none, responseTime := none }]

/-- Sanity evaluation: at `now = 1000` the cooldown of `s3` has not
expired, so the candidates are `s1` and `s2`, and the zero-failure relay
`s2` wins the comparator. -/
theorem getNextAvailableSMTP_serversEx_eval :
    getNextAvailableSMTP 1000 serversEx =
      some { id := "s2", name := "B", username := "b@x.io", isActive := true,
             failureCount := 0, sentCount := 3, lastUsed := none,
             lastFailure := none, dailyLimit := none, responseTime := none } := by
  decide

theorem C2_getNextAvailableSMTP_selection_witness :
    getNextAvailableSMTP 1000 serversEx = none ↔
      serversEx.filterMap (selectionFilter 1000) = [] :=
  (C2_getNextAvailableSMTP_selection 1000 serversEx (by decide)).1

end BlackQuiet
